import Mathlib

set_option maxRecDepth 8192

/-!
Shallow embedding of the daily-aggregation mechanism of the calorie-tracking
backend (mini-fitness-app): the tables of `db/schema.sql` relevant to the
Daily Aggregate Maintainer, the PL/pgSQL trigger function
`update_daily_stats_for_meal` (schema.sql lines 107-149), the trigger wiring
`update_daily_stats_on_meal_item_change` (AFTER INSERT OR UPDATE OR DELETE ON
meal_items, FOR EACH ROW), the foreign-key cascade deletes
(users → meals → meal_items, users → daily_stats), and the live recomputation
of `GET /api/dashboard` (src/routes/dashboard.ts).

Modelling conventions:
* UUID primary keys become `Nat` ids; `DATE` becomes `Nat`.
* `DECIMAL(8,2)` calorie values become `Rat` (Postgres decimals are exact).
* Columns that play no role in aggregation (names, photo urls, protein,
  timestamps, row ids of daily_stats) are omitted; `updated_at` bookkeeping
  is dropped since no claim mentions it.
* SQL `SELECT ... INTO` single-row lookups become `List.find?`; the source
  relies on primary-key uniqueness for these to be deterministic, mirrored
  here by `Nodup` hypotheses where a proof needs them.
* Per Postgres semantics, an `AFTER DELETE` row-level trigger fired by a
  foreign-key cascade runs after both the parent row and the cascaded child
  rows are deleted, so inside the trigger the parent `meals` row is no
  longer visible; the trigger's own comment ("Skip if user_id is null
  (happens during CASCADE DELETE)") records this.
-/

/-- A row of `users` (schema.sql lines 14-22): only the id and the
`daily_calorie_goal INTEGER` column participate in aggregation. -/
structure UserRow where
  id : Nat
  daily_calorie_goal : Int
deriving DecidableEq, Repr

/-- A row of `meals` (schema.sql lines 24-33). -/
structure MealRow where
  id : Nat
  user_id : Nat
  meal_name : String
  meal_type : String
  meal_date : Nat
deriving DecidableEq, Repr

/-- A row of `meal_items` (schema.sql lines 35-48): only `id`, `meal_id` and
`calories DECIMAL(8,2)` participate in aggregation. -/
structure MealItemRow where
  id : Nat
  meal_id : Nat
  calories : Rat
deriving DecidableEq, Repr

/-- A row of `daily_stats` (schema.sql lines 50-60), keyed by the UNIQUE
`(user_id, stats_date)` pair. -/
structure DailyStatsRow where
  user_id : Nat
  stats_date : Nat
  total_calories : Rat
  meals_logged : Nat
  goal_achieved : Bool
deriving DecidableEq, Repr

/-- The database state: the four tables the aggregation mechanism touches. -/
structure DB where
  users : List UserRow
  meals : List MealRow
  meal_items : List MealItemRow
  daily_stats : List DailyStatsRow
deriving DecidableEq, Repr

/-- `SELECT m.meal_date, m.user_id FROM meals m WHERE m.id = mid`
(schema.sql lines 117/119); `find?` models the single-row read off the
primary key. -/
def lookupMeal (meals : List MealRow) (mid : Nat) : Option MealRow :=
  meals.find? (fun m => m.id == mid)

/-- `SELECT daily_calorie_goal FROM users WHERE id = uid`
(schema.sql line 134). -/
def lookupUser (users : List UserRow) (uid : Nat) : Option UserRow :=
  users.find? (fun u => u.id == uid)

/-- The join condition of schema.sql lines 127-129: the item's parent meal
(found by primary key) belongs to the given user and date. -/
def itemInBucket (meals : List MealRow) (it : MealItemRow) (uid d : Nat) : Bool :=
  match lookupMeal meals it.meal_id with
  | some m => m.user_id == uid && m.meal_date == d
  | none => false

/-- `SELECT COALESCE(SUM(mi.calories), 0) FROM meal_items mi JOIN meals m ON
mi.meal_id = m.id WHERE m.user_id = uid AND m.meal_date = d`
(schema.sql lines 127-129). -/
def bucketCalories (meals : List MealRow) (items : List MealItemRow) (uid d : Nat) : Rat :=
  ((items.filter (fun it => itemInBucket meals it uid d)).map (fun it => it.calories)).sum

/-- `SELECT COUNT(DISTINCT m.id) FROM meals m WHERE m.user_id = uid AND
m.meal_date = d` (schema.sql lines 131-132): all meal rows of the bucket are
counted, with or without items. -/
def mealsLogged (meals : List MealRow) (uid d : Nat) : Nat :=
  (((meals.filter (fun m => m.user_id == uid && m.meal_date == d)).map (fun m => m.id)).dedup).length

/-- The `(user_id, stats_date)` key test used by the UNIQUE constraint and
the `ON CONFLICT` clause. -/
def statsKey (r : DailyStatsRow) (uid d : Nat) : Bool :=
  r.user_id == uid && r.stats_date == d

/-- `INSERT INTO daily_stats ... ON CONFLICT (user_id, stats_date) DO UPDATE
SET total_calories = ..., meals_logged = ..., goal_achieved = ...`
(schema.sql lines 141-145): update the keyed row in place if present,
append a fresh row otherwise. -/
def upsertDailyStats (stats : List DailyStatsRow) (uid d : Nat)
    (tot : Rat) (cnt : Nat) (ga : Bool) : List DailyStatsRow :=
  if stats.any (fun r => statsKey r uid d) then
    stats.map (fun r =>
      if statsKey r uid d then
        { r with total_calories := tot, meals_logged := cnt, goal_achieved := ga }
      else r)
  else
    stats ++ [{ user_id := uid, stats_date := d, total_calories := tot,
                meals_logged := cnt, goal_achieved := ga }]

/-- The trigger function `update_daily_stats_for_meal` (schema.sql lines
107-149), fired AFTER a `meal_items` row change; `row_meal_id` is
`OLD.meal_id` for a delete and `NEW.meal_id` otherwise.  It freshly looks up
the parent meal; if the meal (hence `v_meal_user_id`) or the user is gone it
skips (lines 123-125 and 137-139), otherwise it recomputes the bucket and
upserts, with `goal_achieved = (v_total_cals <= v_user_goal)` (line 142). -/
def update_daily_stats_for_meal (db : DB) (row_meal_id : Nat) : DB :=
  match lookupMeal db.meals row_meal_id with
  | none => db
  | some m =>
    let tot := bucketCalories db.meals db.meal_items m.user_id m.meal_date
    let cnt := mealsLogged db.meals m.user_id m.meal_date
    match lookupUser db.users m.user_id with
    | none => db
    | some u =>
      { db with daily_stats := (upsertDailyStats db.daily_stats m.user_id m.meal_date
          tot cnt (decide (tot ≤ (u.daily_calorie_goal : Rat)))) }

/-- As `update_daily_stats_for_meal`, but making the daily_stats foreign-key
check on `user_id` (schema.sql line 52) explicit: writing a row whose user
does not exist would raise, anything else succeeds. -/
def update_daily_stats_for_meal_checked (db : DB) (row_meal_id : Nat) : Except String DB :=
  match lookupMeal db.meals row_meal_id with
  | none => .ok db
  | some m =>
    let tot := bucketCalories db.meals db.meal_items m.user_id m.meal_date
    let cnt := mealsLogged db.meals m.user_id m.meal_date
    match lookupUser db.users m.user_id with
    | none => .ok db
    | some u =>
      if (lookupUser db.users m.user_id).isSome then
        .ok { db with daily_stats := (upsertDailyStats db.daily_stats m.user_id m.meal_date
                tot cnt (decide (tot ≤ (u.daily_calorie_goal : Rat)))) }
      else
        .error "daily_stats_user_id_fkey violation"

/-- A `meal_items` write, as fired through the trigger
`update_daily_stats_on_meal_item_change` (schema.sql lines 151-153). -/
inductive ItemOp where
  | ins (it : MealItemRow)
  | upd (item_id : Nat) (calories : Rat)
  | del (item_id : Nat)
deriving DecidableEq, Repr

/-- The raw table change of a `meal_items` write, before the AFTER trigger
runs: returns the changed database and the meal id of the affected row image
(`NEW.meal_id` for insert/update, `OLD.meal_id` for delete), or `none` when
the targeted row does not exist. -/
def rawItemChange (db : DB) : ItemOp → Option (DB × Nat)
  | .ins it => some ({ db with meal_items := db.meal_items ++ [it] }, it.meal_id)
  | .upd item_id c =>
    (db.meal_items.find? (fun x => x.id == item_id)).map (fun old =>
      ({ db with meal_items := db.meal_items.map (fun x =>
          if x.id == item_id then { x with calories := c } else x) }, old.meal_id))
  | .del item_id =>
    (db.meal_items.find? (fun x => x.id == item_id)).map (fun old =>
      ({ db with meal_items := db.meal_items.filter (fun x => !(x.id == item_id)) },
       old.meal_id))

/-- A `meal_items` write followed by the AFTER ROW trigger, as installed by
`update_daily_stats_on_meal_item_change` (schema.sql lines 151-153). -/
def applyItemOp (db : DB) (op : ItemOp) : DB :=
  match rawItemChange db op with
  | none => db
  | some (db1, rid) => update_daily_stats_for_meal db1 rid

/-- Insert one meal item (e.g. the per-item INSERT of
POST /api/meals/upload) and fire the trigger. -/
def insertMealItem (db : DB) (it : MealItemRow) : DB :=
  applyItemOp db (.ins it)

/-- Update one meal item's calories and fire the trigger. -/
def updateMealItemCalories (db : DB) (item_id : Nat) (c : Rat) : DB :=
  applyItemOp db (.upd item_id c)

/-- Delete one meal item directly and fire the trigger with the pre-delete
row image's `OLD.meal_id`. -/
def deleteMealItem (db : DB) (item_id : Nat) : DB :=
  applyItemOp db (.del item_id)

/-- Insert a `meals` row.  No trigger on `meals` touches `daily_stats`
(schema.sql installs the aggregation trigger only on `meal_items`). -/
def insertMeal (db : DB) (m : MealRow) : DB :=
  { db with meals := db.meals ++ [m] }

/-- Update a meal's name; touches only the `meals` table. -/
def updateMealName (db : DB) (mid : Nat) (name : String) : DB :=
  { db with meals := db.meals.map (fun m =>
      if m.id == mid then { m with meal_name := name } else m) }

/-- Update a meal's type; touches only the `meals` table. -/
def updateMealType (db : DB) (mid : Nat) (ty : String) : DB :=
  { db with meals := db.meals.map (fun m =>
      if m.id == mid then { m with meal_type := ty } else m) }

/-- POST /api/meals/upload (routes/meals.ts): insert the meal row, then
insert one `meal_items` row per detected food (each firing the trigger);
when detection failed the list is empty and only the meal row is written. -/
def uploadMeal (db : DB) (m : MealRow) (detected : List MealItemRow) : DB :=
  detected.foldl (fun s it => insertMealItem s it) (insertMeal db m)

/-- `DELETE FROM meals WHERE id = mid` with `ON DELETE CASCADE` on
`meal_items.meal_id`: the meal row and its items are deleted first, then the
AFTER DELETE row trigger fires once per cascaded item, each invocation
seeing the post-delete tables (Postgres runs AFTER ROW triggers queued by
the cascade after the cascading DELETE statement completes). -/
def deleteMeal (db : DB) (mid : Nat) : DB :=
  let victims := db.meal_items.filter (fun it => it.meal_id == mid)
  let db1 : DB :=
    { db with meals := db.meals.filter (fun m => !(m.id == mid)),
              meal_items := db.meal_items.filter (fun it => !(it.meal_id == mid)) }
  victims.foldl (fun s old => update_daily_stats_for_meal s old.meal_id) db1

/-- `DELETE FROM users WHERE id = uid` with cascades to `meals`,
`meal_items` and `daily_stats` (schema.sql lines 26, 37, 52); the per-item
AFTER DELETE triggers then fire on the post-delete tables. -/
def deleteUser (db : DB) (uid : Nat) : DB :=
  let victimMealIds := (db.meals.filter (fun m => m.user_id == uid)).map (fun m => m.id)
  let victims := db.meal_items.filter (fun it => victimMealIds.contains it.meal_id)
  let db1 : DB :=
    { users := db.users.filter (fun u => !(u.id == uid)),
      meals := db.meals.filter (fun m => !(m.user_id == uid)),
      meal_items := db.meal_items.filter (fun it => !(victimMealIds.contains it.meal_id)),
      daily_stats := db.daily_stats.filter (fun r => !(r.user_id == uid)) }
  victims.foldl (fun s old => update_daily_stats_for_meal s old.meal_id) db1

/-- As `deleteUser`, with the cascaded triggers run through the
foreign-key-checked trigger so that "raises no error" is expressible. -/
def deleteUserChecked (db : DB) (uid : Nat) : Except String DB :=
  let victimMealIds := (db.meals.filter (fun m => m.user_id == uid)).map (fun m => m.id)
  let victims := db.meal_items.filter (fun it => victimMealIds.contains it.meal_id)
  let db1 : DB :=
    { users := db.users.filter (fun u => !(u.id == uid)),
      meals := db.meals.filter (fun m => !(m.user_id == uid)),
      meal_items := db.meal_items.filter (fun it => !(victimMealIds.contains it.meal_id)),
      daily_stats := db.daily_stats.filter (fun r => !(r.user_id == uid)) }
  victims.foldlM (fun s old => update_daily_stats_for_meal_checked s old.meal_id) db1

/-- JavaScript `Math.round`: round half up (dashboard.ts line 98 applies it
to each item's calories). -/
def jsRound (q : Rat) : Int := ⌊q + 1 / 2⌋

/-- The per-meal item query and rounded sum of GET /api/dashboard
(dashboard.ts lines 88-101): the items of one meal, each `Math.round`ed,
summed. -/
def mealItemsRounded (items : List MealItemRow) (mid : Nat) : Int :=
  ((items.filter (fun it => it.meal_id == mid)).map (fun it => jsRound it.calories)).sum

/-- The live total of GET /api/dashboard (dashboard.ts lines 87-110): for
each meal of the user and date, sum the per-item `Math.round`ed calories,
then sum over meals. -/
def dashboardTotal (meals : List MealRow) (items : List MealItemRow) (uid d : Nat) : Int :=
  ((meals.filter (fun m => m.user_id == uid && m.meal_date == d)).map
    (fun m => mealItemsRounded items m.id)).sum

/-- GET /api/dashboard (dashboard.ts): 404 when the user is missing,
otherwise the live total and `goal_achieved = totalCalories <= dailyGoal`
(line 117).  It never reads `daily_stats`. -/
def dashboard (db : DB) (uid d : Nat) : Option (Int × Bool) :=
  match lookupUser db.users uid with
  | none => none
  | some u =>
    let t := dashboardTotal db.meals db.meal_items uid d
    some (t, decide (t ≤ u.daily_calorie_goal))

/-- The daily_stats rows of one bucket. -/
def statsFor (stats : List DailyStatsRow) (uid d : Nat) : List DailyStatsRow :=
  stats.filter (fun r => statsKey r uid d)

/-- The UNIQUE(user_id, stats_date) constraint of schema.sql line 59. -/
abbrev statsKeyUnique (stats : List DailyStatsRow) : Prop :=
  stats.Pairwise (fun a b => ¬(a.user_id = b.user_id ∧ a.stats_date = b.stats_date))

/-- The row the trigger writes for meal `m` and user `u` over the given
tables: live bucket total, live meal count, inclusive goal comparison. -/
def recomputedRow (meals : List MealRow) (items : List MealItemRow)
    (m : MealRow) (u : UserRow) : DailyStatsRow :=
  { user_id := m.user_id, stats_date := m.meal_date,
    total_calories := bucketCalories meals items m.user_id m.meal_date,
    meals_logged := mealsLogged meals m.user_id m.meal_date,
    goal_achieved := decide (bucketCalories meals items m.user_id m.meal_date ≤
      (u.daily_calorie_goal : Rat)) }

/-! ## Basic lemmas about the upsert and the trigger -/

theorem statsKey_eq_of_true {r : DailyStatsRow} {uid d : Nat}
    (hk : statsKey r uid d = true) : r.user_id = uid ∧ r.stats_date = d := by
  simpa [statsKey] using hk

theorem statsFor_nil_of_all_false {stats : List DailyStatsRow} {uid d : Nat}
    (h : ∀ a ∈ stats, statsKey a uid d = false) : statsFor stats uid d = [] := by
  unfold statsFor
  rw [List.filter_eq_nil_iff]
  intro a ha
  simp [h a ha]

theorem statsFor_map_upsert {stats : List DailyStatsRow} {uid d : Nat}
    {tot : Rat} {cnt : Nat} {ga : Bool}
    (h : statsKeyUnique stats) (hany : stats.any (fun r => statsKey r uid d) = true) :
    statsFor (stats.map (fun r =>
      if statsKey r uid d then
        { r with total_calories := tot, meals_logged := cnt, goal_achieved := ga }
      else r)) uid d =
      [{ user_id := uid, stats_date := d, total_calories := tot,
         meals_logged := cnt, goal_achieved := ga }] := by
  induction stats with
  | nil => simp at hany
  | cons r t ih =>
    obtain ⟨hhead, htail⟩ := List.pairwise_cons.mp h
    by_cases hk : statsKey r uid d = true
    · obtain ⟨hru, hrd⟩ := statsKey_eq_of_true hk
      have htkeys : ∀ b ∈ t, statsKey b uid d = false := by
        intro b hb
        have hnb := hhead b hb
        by_contra hbt
        rw [Bool.not_eq_false] at hbt
        obtain ⟨hbu, hbd⟩ := statsKey_eq_of_true hbt
        exact hnb ⟨hru.trans hbu.symm, hrd.trans hbd.symm⟩
      have hrest : (t.map (fun x =>
          if statsKey x uid d then
            { x with total_calories := tot, meals_logged := cnt, goal_achieved := ga }
          else x)).filter (fun x => statsKey x uid d) = [] := by
        rw [List.filter_eq_nil_iff]
        intro a ha
        rw [List.mem_map] at ha
        obtain ⟨b, hb, hba⟩ := ha
        rw [htkeys b hb] at hba
        simp only [Bool.false_eq_true, if_false] at hba
        subst hba
        simp [htkeys b hb]
      have hre : ({ r with total_calories := tot, meals_logged := cnt, goal_achieved := ga } : DailyStatsRow) = { user_id := uid, stats_date := d, total_calories := tot, meals_logged := cnt, goal_achieved := ga } := by
        cases r
        simp only at hru hrd
        simp [hru, hrd]
      simp only [List.map_cons, hk, if_true, hre]
      unfold statsFor
      rw [List.filter_cons, if_pos (show statsKey { user_id := uid, stats_date := d, total_calories := tot, meals_logged := cnt, goal_achieved := ga } uid d = true by simp [statsKey]), hrest]
    · have hany' : t.any (fun x => statsKey x uid d) = true := by
        rcases List.any_eq_true.mp hany with ⟨a, ha, hat⟩
        rcases List.mem_cons.mp ha with rfl | hat'
        · exact absurd hat hk
        · exact List.any_eq_true.mpr ⟨a, hat', hat⟩
      have ihv := ih htail hany'
      have hkf : statsKey r uid d = false := Bool.eq_false_iff.mpr hk
      simp only [List.map_cons, hkf, Bool.false_eq_true, if_false]
      unfold statsFor at ihv ⊢
      rw [List.filter_cons, if_neg hk]
      exact ihv

/-- The upsert leaves exactly one row under the written key, carrying the
written values, provided the UNIQUE constraint held before. -/
theorem statsFor_upsert (stats : List DailyStatsRow) (uid d : Nat)
    (tot : Rat) (cnt : Nat) (ga : Bool) (h : statsKeyUnique stats) :
    statsFor (upsertDailyStats stats uid d tot cnt ga) uid d =
      [{ user_id := uid, stats_date := d, total_calories := tot,
         meals_logged := cnt, goal_achieved := ga }] := by
  unfold upsertDailyStats
  by_cases hany : stats.any (fun r => statsKey r uid d) = true
  · rw [if_pos hany]
    exact statsFor_map_upsert h hany
  · have hanyf : stats.any (fun r => statsKey r uid d) = false :=
      Bool.eq_false_iff.mpr hany
    rw [if_neg (by rw [hanyf]; simp)]
    have hall : ∀ a ∈ stats, statsKey a uid d = false := by
      intro a ha
      by_contra hat
      rw [Bool.not_eq_false] at hat
      have : stats.any (fun r => statsKey r uid d) = true :=
        List.any_eq_true.mpr ⟨a, ha, hat⟩
      rw [this] at hanyf
      exact Bool.true_eq_false.mp hanyf
    unfold statsFor
    rw [List.filter_append]
    have h1 : stats.filter (fun r => statsKey r uid d) = [] := statsFor_nil_of_all_false hall
    rw [h1]
    simp [statsKey]

/-- The trigger only ever writes `daily_stats`: `users` is untouched. -/
theorem trigger_users (db : DB) (rid : Nat) :
    (update_daily_stats_for_meal db rid).users = db.users := by
  unfold update_daily_stats_for_meal
  split
  · rfl
  · split <;> rfl

/-- The trigger only ever writes `daily_stats`: `meals` is untouched. -/
theorem trigger_meals (db : DB) (rid : Nat) :
    (update_daily_stats_for_meal db rid).meals = db.meals := by
  unfold update_daily_stats_for_meal
  split
  · rfl
  · split <;> rfl

/-- The trigger only ever writes `daily_stats`: `meal_items` is untouched. -/
theorem trigger_meal_items (db : DB) (rid : Nat) :
    (update_daily_stats_for_meal db rid).meal_items = db.meal_items := by
  unfold update_daily_stats_for_meal
  split
  · rfl
  · split <;> rfl

/-- Skip path of schema.sql lines 123-125: the parent meal is gone
(`v_meal_user_id IS NULL`), so nothing is recomputed or written. -/
theorem trigger_skip_of_no_meal (db : DB) (rid : Nat)
    (h : lookupMeal db.meals rid = none) :
    update_daily_stats_for_meal db rid = db := by
  unfold update_daily_stats_for_meal
  rw [h]

/-- Skip path of schema.sql lines 137-139: the owning user is gone
(`v_user_goal IS NULL`), so nothing is written. -/
theorem trigger_skip_of_no_user (db : DB) (rid : Nat) (m : MealRow)
    (hm : lookupMeal db.meals rid = some m)
    (hu : lookupUser db.users m.user_id = none) :
    update_daily_stats_for_meal db rid = db := by
  unfold update_daily_stats_for_meal
  rw [hm]
  simp only [hu]

/-- When the parent meal and its user both resolve, the trigger upserts the
recomputed row for the meal's bucket. -/
theorem trigger_write (db : DB) (rid : Nat) (m : MealRow) (u : UserRow)
    (hm : lookupMeal db.meals rid = some m)
    (hu : lookupUser db.users m.user_id = some u) :
    update_daily_stats_for_meal db rid =
      { db with daily_stats := (upsertDailyStats db.daily_stats m.user_id m.meal_date
          (bucketCalories db.meals db.meal_items m.user_id m.meal_date)
          (mealsLogged db.meals m.user_id m.meal_date)
          (decide (bucketCalories db.meals db.meal_items m.user_id m.meal_date ≤
            (u.daily_calorie_goal : Rat)))) } := by
  unfold update_daily_stats_for_meal
  rw [hm]
  simp only [hu]

/-- After a successful trigger run, the affected bucket holds exactly one
daily_stats row and it carries the live recomputation. -/
theorem trigger_statsFor (db : DB) (rid : Nat) (m : MealRow) (u : UserRow)
    (hm : lookupMeal db.meals rid = some m)
    (hu : lookupUser db.users m.user_id = some u)
    (hun : statsKeyUnique db.daily_stats) :
    statsFor (update_daily_stats_for_meal db rid).daily_stats m.user_id m.meal_date =
      [recomputedRow db.meals db.meal_items m u] := by
  rw [trigger_write db rid m u hm hu]
  exact statsFor_upsert _ _ _ _ _ _ hun

/-- The explicit-foreign-key variant never raises: whenever it would write,
the user row it references was just read successfully. -/
theorem trigger_checked_ok (db : DB) (rid : Nat) :
    update_daily_stats_for_meal_checked db rid = .ok (update_daily_stats_for_meal db rid) := by
  unfold update_daily_stats_for_meal_checked update_daily_stats_for_meal
  cases lookupMeal db.meals rid with
  | none => rfl
  | some m =>
    cases hu : lookupUser db.users m.user_id with
    | none => simp [hu]
    | some u => simp [hu]

/-- A fold of trigger invocations over victims whose parent meal lookup
fails (in the post-cascade meals table) leaves the state untouched. -/
theorem foldl_trigger_skip (l : List MealItemRow) (db : DB)
    (h : ∀ x ∈ l, lookupMeal db.meals x.meal_id = none) :
    l.foldl (fun s old => update_daily_stats_for_meal s old.meal_id) db = db := by
  induction l with
  | nil => rfl
  | cons x t ih =>
    rw [List.foldl_cons, trigger_skip_of_no_meal db x.meal_id (h x (List.mem_cons_self x t))]
    exact ih (fun y hy => h y (List.mem_cons_of_mem x hy))

/-- Checked variant of `foldl_trigger_skip`: the fold also raises no error. -/
theorem foldlM_trigger_skip (l : List MealItemRow) (db : DB)
    (h : ∀ x ∈ l, lookupMeal db.meals x.meal_id = none) :
    l.foldlM (fun s old => update_daily_stats_for_meal_checked s old.meal_id) db =
      (Except.ok db : Except String DB) := by
  induction l with
  | nil => rfl
  | cons x t ih =>
    rw [List.foldlM_cons, trigger_checked_ok db x.meal_id,
        trigger_skip_of_no_meal db x.meal_id (h x (List.mem_cons_self x t))]
    exact ih (fun y hy => h y (List.mem_cons_of_mem x hy))

/-- After removing all meals with id `mid`, the primary-key lookup of `mid`
fails. -/
theorem lookupMeal_filter_ne (meals : List MealRow) (mid : Nat) :
    lookupMeal (meals.filter (fun m => !(m.id == mid))) mid = none := by
  unfold lookupMeal
  rw [List.find?_eq_none]
  intro m hm
  rw [List.mem_filter] at hm
  simpa using hm.2

/-- Under primary-key uniqueness of meal ids, removing the meals of user
`uid` makes lookups of that user's meal ids fail. -/
theorem lookupMeal_filter_user (meals : List MealRow) (uid : Nat) (mid : Nat)
    (hnd : (meals.map (fun m => m.id)).Nodup)
    (hmem : ∃ m ∈ meals, m.id = mid ∧ m.user_id = uid) :
    lookupMeal (meals.filter (fun m => !(m.user_id == uid))) mid = none := by
  obtain ⟨m, hm, hmid, hmu⟩ := hmem
  unfold lookupMeal
  rw [List.find?_eq_none]
  intro m' hm' hbeq
  rw [List.mem_filter] at hm'
  obtain ⟨hm'mem, hm'u⟩ := hm'
  have hid : m'.id = mid := by simpa using hbeq
  have : m = m' := by
    have hinj := List.inj_on_of_nodup_map hnd
    exact hinj hm hm'mem (by rw [hmid, hid])
  subst this
  rw [hmu] at hm'u
  simp at hm'u

/-- After an upsert, the written key is always present. -/
theorem upsert_any (stats : List DailyStatsRow) (uid d : Nat)
    (tot : Rat) (cnt : Nat) (ga : Bool) :
    (upsertDailyStats stats uid d tot cnt ga).any (fun r => statsKey r uid d) = true := by
  unfold upsertDailyStats
  by_cases hany : stats.any (fun r => statsKey r uid d) = true
  · rw [if_pos hany]
    rcases List.any_eq_true.mp hany with ⟨a, ha, hat⟩
    apply List.any_eq_true.mpr
    refine ⟨_, List.mem_map.mpr ⟨a, ha, rfl⟩, ?_⟩
    rw [if_pos hat]
    exact hat
  · rw [if_neg hany]
    apply List.any_eq_true.mpr
    exact ⟨_, List.mem_append_right _ (List.mem_singleton_self _), by simp [statsKey]⟩

/-- The per-row update of the ON CONFLICT branch is idempotent. -/
theorem upsert_row_idem (uid d : Nat) (tot : Rat) (cnt : Nat) (ga : Bool)
    (r : DailyStatsRow) :
    (fun x => if statsKey x uid d then { x with total_calories := tot, meals_logged := cnt, goal_achieved := ga } else x)
      ((fun x => if statsKey x uid d then { x with total_calories := tot, meals_logged := cnt, goal_achieved := ga } else x) r) =
    (fun x => if statsKey x uid d then { x with total_calories := tot, meals_logged := cnt, goal_achieved := ga } else x) r := by
  by_cases hk : statsKey r uid d = true
  · simp only [if_pos hk]
    have hk2 : statsKey { r with total_calories := tot, meals_logged := cnt, goal_achieved := ga } uid d = true := hk
    simp only [if_pos hk2]
  · simp only [if_neg hk]

/-- Unfolding equation: the ON CONFLICT update branch. -/
theorem upsertDailyStats_of_any (stats : List DailyStatsRow) (uid d : Nat)
    (tot : Rat) (cnt : Nat) (ga : Bool)
    (h : stats.any (fun r => statsKey r uid d) = true) :
    upsertDailyStats stats uid d tot cnt ga =
      stats.map (fun r => if statsKey r uid d then { r with total_calories := tot, meals_logged := cnt, goal_achieved := ga } else r) := by
  unfold upsertDailyStats
  rw [if_pos h]

/-- Unfolding equation: the fresh INSERT branch. -/
theorem upsertDailyStats_of_not_any (stats : List DailyStatsRow) (uid d : Nat)
    (tot : Rat) (cnt : Nat) (ga : Bool)
    (h : ¬ stats.any (fun r => statsKey r uid d) = true) :
    upsertDailyStats stats uid d tot cnt ga =
      stats ++ [{ user_id := uid, stats_date := d, total_calories := tot, meals_logged := cnt, goal_achieved := ga }] := by
  unfold upsertDailyStats
  rw [if_neg h]

/-- Upserting the same key and values twice equals upserting once. -/
theorem upsert_idem (stats : List DailyStatsRow) (uid d : Nat)
    (tot : Rat) (cnt : Nat) (ga : Bool) :
    upsertDailyStats (upsertDailyStats stats uid d tot cnt ga) uid d tot cnt ga =
      upsertDailyStats stats uid d tot cnt ga := by
  rw [upsertDailyStats_of_any _ uid d tot cnt ga (upsert_any stats uid d tot cnt ga)]
  by_cases hany0 : stats.any (fun r => statsKey r uid d) = true
  · rw [upsertDailyStats_of_any _ uid d tot cnt ga hany0, List.map_map]
    apply List.map_congr_left
    intro a _
    exact upsert_row_idem uid d tot cnt ga a
  · rw [upsertDailyStats_of_not_any _ uid d tot cnt ga hany0, List.map_append]
    have h1 : stats.map (fun r => if statsKey r uid d then { r with total_calories := tot, meals_logged := cnt, goal_achieved := ga } else r) = stats := by
      conv_rhs => rw [show stats = stats.map id from (List.map_id stats).symm]
      apply List.map_congr_left
      intro a ha
      have haf : statsKey a uid d = false := by
        by_contra hat
        rw [Bool.not_eq_false] at hat
        exact hany0 (List.any_eq_true.mpr ⟨a, ha, hat⟩)
      simp [haf]
    have h2 : ([{ user_id := uid, stats_date := d, total_calories := tot, meals_logged := cnt, goal_achieved := ga }] : List DailyStatsRow).map (fun r => if statsKey r uid d then { r with total_calories := tot, meals_logged := cnt, goal_achieved := ga } else r) = [{ user_id := uid, stats_date := d, total_calories := tot, meals_logged := cnt, goal_achieved := ga }] := by
      simp [statsKey]
    rw [h1, h2]

/-- `trigger_write` restated over a state whose `daily_stats` was replaced:
only the stats table differs, so resolution and recomputation are unchanged. -/
theorem trigger_write_on_stats (db : DB) (S : List DailyStatsRow) (rid : Nat)
    (m : MealRow) (u : UserRow)
    (hm : lookupMeal db.meals rid = some m)
    (hu : lookupUser db.users m.user_id = some u) :
    update_daily_stats_for_meal { db with daily_stats := S } rid =
      { db with daily_stats := (upsertDailyStats S m.user_id m.meal_date
          (bucketCalories db.meals db.meal_items m.user_id m.meal_date)
          (mealsLogged db.meals m.user_id m.meal_date)
          (decide (bucketCalories db.meals db.meal_items m.user_id m.meal_date ≤
            (u.daily_calorie_goal : Rat)))) } :=
  trigger_write { db with daily_stats := S } rid m u hm hu

/-- Running the trigger twice in a row is the same as running it once: the
second run recomputes the same values from the unchanged source tables and
the upsert overwrites the row with the values it already carries. -/
theorem trigger_idem (db : DB) (rid : Nat) :
    update_daily_stats_for_meal (update_daily_stats_for_meal db rid) rid =
      update_daily_stats_for_meal db rid := by
  cases hm : lookupMeal db.meals rid with
  | none =>
    rw [trigger_skip_of_no_meal db rid hm, trigger_skip_of_no_meal db rid hm]
  | some m =>
    cases hu : lookupUser db.users m.user_id with
    | none =>
      rw [trigger_skip_of_no_user db rid m hm hu, trigger_skip_of_no_user db rid m hm hu]
    | some u =>
      rw [trigger_write db rid m u hm hu, trigger_write_on_stats db _ rid m u hm hu,
          upsert_idem]

/-- Appending an item of the bucket raises the bucket's total by exactly its
calories. -/
theorem bucketCalories_append (meals : List MealRow) (items : List MealItemRow)
    (uid d : Nat) (it : MealItemRow) (h : itemInBucket meals it uid d = true) :
    bucketCalories meals (items ++ [it]) uid d =
      bucketCalories meals items uid d + it.calories := by
  unfold bucketCalories
  rw [List.filter_append, List.map_append, List.sum_append]
  simp [h]

/-- After deleting the only item of a bucket, the bucket's item set is empty. -/
theorem bucket_after_delete (meals : List MealRow) (items : List MealItemRow)
    (uid d : Nat) (it : MealItemRow)
    (h : items.filter (fun x => itemInBucket meals x uid d) = [it]) :
    (items.filter (fun x => !(x.id == it.id))).filter
      (fun x => itemInBucket meals x uid d) = [] := by
  rw [List.filter_eq_nil_iff]
  intro a ha
  rw [List.mem_filter] at ha
  obtain ⟨hamem, hane⟩ := ha
  intro hbucket
  have hain : a ∈ items.filter (fun x => itemInBucket meals x uid d) :=
    List.mem_filter.mpr ⟨hamem, hbucket⟩
  rw [h, List.mem_singleton] at hain
  subst hain
  simp at hane

/-- Deleting a meal cascade-deletes its items, and every per-item trigger
invocation skips (the parent meal is already gone), so `daily_stats` is left
exactly as it was. -/
theorem deleteMeal_eq (db : DB) (mid : Nat) :
    deleteMeal db mid =
      { db with meals := db.meals.filter (fun m => !(m.id == mid)),
                meal_items := db.meal_items.filter (fun it => !(it.meal_id == mid)) } := by
  unfold deleteMeal
  apply foldl_trigger_skip
  intro x hx
  rw [List.mem_filter] at hx
  have hxm : x.meal_id = mid := by simpa using hx.2
  rw [hxm]
  exact lookupMeal_filter_ne db.meals mid

/-- Deleting a user cascade-deletes their meals, items and daily_stats rows;
every per-item trigger invocation skips because the parent meal is gone
(given primary-key uniqueness of meal ids). -/
theorem deleteUser_eq (db : DB) (uid : Nat)
    (hnd : (db.meals.map (fun m => m.id)).Nodup) :
    deleteUser db uid =
      { users := db.users.filter (fun u => !(u.id == uid)),
        meals := db.meals.filter (fun m => !(m.user_id == uid)),
        meal_items := db.meal_items.filter (fun it =>
          !(((db.meals.filter (fun m => m.user_id == uid)).map (fun m => m.id)).contains it.meal_id)),
        daily_stats := db.daily_stats.filter (fun r => !(r.user_id == uid)) } := by
  unfold deleteUser
  apply foldl_trigger_skip
  intro x hx
  rw [List.mem_filter] at hx
  have hxc : ((db.meals.filter (fun m => m.user_id == uid)).map (fun m => m.id)).contains x.meal_id = true := hx.2
  have hxmem := List.mem_map.mp (show x.meal_id ∈ (db.meals.filter (fun m => m.user_id == uid)).map (fun m => m.id) by simpa using hxc)
  obtain ⟨m, hmf, hmid⟩ := hxmem
  rw [List.mem_filter] at hmf
  exact lookupMeal_filter_user db.meals uid x.meal_id hnd
    ⟨m, hmf.1, hmid, by simpa using hmf.2⟩

/-- Checked variant of `deleteUser_eq`: the cascade raises no error. -/
theorem deleteUserChecked_eq (db : DB) (uid : Nat)
    (hnd : (db.meals.map (fun m => m.id)).Nodup) :
    deleteUserChecked db uid = Except.ok (deleteUser db uid) := by
  rw [deleteUser_eq db uid hnd]
  unfold deleteUserChecked
  apply foldlM_trigger_skip
  intro x hx
  rw [List.mem_filter] at hx
  have hxc : ((db.meals.filter (fun m => m.user_id == uid)).map (fun m => m.id)).contains x.meal_id = true := hx.2
  have hxmem := List.mem_map.mp (show x.meal_id ∈ (db.meals.filter (fun m => m.user_id == uid)).map (fun m => m.id) by simpa using hxc)
  obtain ⟨m, hmf, hmid⟩ := hxmem
  rw [List.mem_filter] at hmf
  exact lookupMeal_filter_user db.meals uid x.meal_id hnd
    ⟨m, hmf.1, hmid, by simpa using hmf.2⟩

/-! ## Dashboard live total versus the trigger's bucket total -/

theorem sum_map_add {α β : Type} [AddCommMonoid β] (l : List α) (f g : α → β) :
    (l.map (fun x => f x + g x)).sum = (l.map f).sum + (l.map g).sum := by
  induction l with
  | nil => simp
  | cons x t ih =>
    simp only [List.map_cons, List.sum_cons, ih]
    rw [add_add_add_comm]

theorem sum_filter_map {α β : Type} [AddCommMonoid β] (p : α → Bool) (f : α → β)
    (l : List α) :
    ((l.filter p).map f).sum = (l.map (fun x => if p x then f x else 0)).sum := by
  induction l with
  | nil => rfl
  | cons x t ih =>
    rw [List.filter_cons, List.map_cons, List.sum_cons]
    by_cases hp : p x = true
    · rw [if_pos hp, if_pos hp, List.map_cons, List.sum_cons, ih]
    · rw [if_neg hp, if_neg hp, zero_add, ih]

theorem mealItemsRounded_cons (items : List MealItemRow) (mid : Nat) (it : MealItemRow) :
    mealItemsRounded (it :: items) mid =
      (if it.meal_id == mid then jsRound it.calories else 0) + mealItemsRounded items mid := by
  unfold mealItemsRounded
  rw [List.filter_cons]
  by_cases hc : (it.meal_id == mid) = true
  · rw [if_pos hc, if_pos hc, List.map_cons, List.sum_cons]
  · rw [if_neg hc, if_neg hc, zero_add]

theorem mealItemsRounded_nil (mid : Nat) : mealItemsRounded [] mid = 0 := rfl

theorem dashboardTotal_cons (meals : List MealRow) (items : List MealItemRow)
    (uid d : Nat) (it : MealItemRow) :
    dashboardTotal meals (it :: items) uid d =
      ((meals.filter (fun m => m.user_id == uid && m.meal_date == d)).map
        (fun m => if it.meal_id == m.id then jsRound it.calories else 0)).sum +
      dashboardTotal meals items uid d := by
  unfold dashboardTotal
  rw [show ((meals.filter (fun m => m.user_id == uid && m.meal_date == d)).map
        (fun m => mealItemsRounded (it :: items) m.id)) =
      ((meals.filter (fun m => m.user_id == uid && m.meal_date == d)).map
        (fun m => (if it.meal_id == m.id then jsRound it.calories else 0) +
          mealItemsRounded items m.id)) from
    List.map_congr_left (fun m _ => mealItemsRounded_cons items m.id it)]
  exact sum_map_add _ _ _

/-- Under primary-key uniqueness of meal ids, summing `if x == m.id then c
else 0` over any filtered meal list yields `c` exactly when the meal found
by primary key passes the filter: each item is counted against at most one
meal row. -/
theorem sum_if_meal_id (meals : List MealRow) (p : MealRow → Bool) (x : Nat) (c : Int)
    (hnd : (meals.map (fun m => m.id)).Nodup) :
    ((meals.filter p).map (fun m => if x == m.id then c else 0)).sum =
      (match lookupMeal meals x with
       | some m => if p m then c else 0
       | none => 0) := by
  induction meals with
  | nil => simp [lookupMeal]
  | cons m0 rest ih =>
    rw [List.map_cons, List.nodup_cons] at hnd
    obtain ⟨hm0, hndr⟩ := hnd
    have ihv := ih hndr
    by_cases hx : (m0.id == x) = true
    · have hxid : m0.id = x := by simpa using hx
      have hzero : ((rest.filter p).map (fun m => if x == m.id then c else 0)).sum = 0 := by
        apply List.sum_eq_zero
        intro y hy
        rw [List.mem_map] at hy
        obtain ⟨m', hm', hval⟩ := hy
        rw [List.mem_filter] at hm'
        have hne : (x == m'.id) = false := by
          by_contra hcon
          rw [Bool.not_eq_false] at hcon
          have hxm' : x = m'.id := by simpa using hcon
          exact hm0 (by rw [hxid, hxm']; exact List.mem_map.mpr ⟨m', hm'.1, rfl⟩)
        rw [hne] at hval
        simpa using hval.symm
      have hlk : lookupMeal (m0 :: rest) x = some m0 := by
        unfold lookupMeal
        rw [List.find?_cons, hx]
      rw [hlk]
      rw [List.filter_cons]
      by_cases hp : p m0 = true
      · rw [if_pos hp, List.map_cons, List.sum_cons, hzero, add_zero,
            if_pos (show (x == m0.id) = true by simpa using hxid.symm)]
        simp [hp]
      · rw [if_neg hp, hzero]
        simp [hp]
    · have hlk : lookupMeal (m0 :: rest) x = lookupMeal rest x := by
        unfold lookupMeal
        rw [List.find?_cons, Bool.eq_false_iff.mpr hx]
      rw [hlk, ← ihv, List.filter_cons]
      by_cases hp : p m0 = true
      · rw [if_pos hp, List.map_cons, List.sum_cons,
            if_neg (show ¬(x == m0.id) = true by
              intro hcon
              exact hx (by simpa using (by simpa using hcon : x = m0.id).symm)),
            zero_add]
      · rw [if_neg hp]

/-- Under primary-key uniqueness of meal ids, the dashboard's
meal-grouped rounded total equals a single pass over all items, counting
exactly the items whose parent meal lies in the bucket. -/
theorem dashboardTotal_eq_itemSum (meals : List MealRow) (items : List MealItemRow)
    (uid d : Nat) (hnd : (meals.map (fun m => m.id)).Nodup) :
    dashboardTotal meals items uid d =
      (items.map (fun it =>
        if itemInBucket meals it uid d then jsRound it.calories else 0)).sum := by
  induction items with
  | nil =>
    unfold dashboardTotal
    rw [List.map_nil, List.sum_nil]
    apply List.sum_eq_zero
    intro y hy
    rw [List.mem_map] at hy
    obtain ⟨m, _, hval⟩ := hy
    rw [← hval]
    rfl
  | cons it t ih =>
    rw [dashboardTotal_cons, ih, List.map_cons, List.sum_cons]
    congr 1
    rw [sum_if_meal_id meals _ it.meal_id (jsRound it.calories) hnd]
    unfold itemInBucket
    cases hl : lookupMeal meals it.meal_id with
    | none => rfl
    | some m => rfl

/-- The trigger's bucket total as a single pass over all items. -/
theorem bucketCalories_eq_itemSum (meals : List MealRow) (items : List MealItemRow)
    (uid d : Nat) :
    bucketCalories meals items uid d =
      (items.map (fun it =>
        if itemInBucket meals it uid d then it.calories else 0)).sum :=
  sum_filter_map _ _ _

/-- `Math.round` is the identity on integral calorie values. -/
theorem jsRound_intCast (k : Int) : jsRound ((k : Rat)) = k := by
  unfold jsRound
  rw [Int.floor_int_add]
  have : ⌊(1 / 2 : Rat)⌋ = 0 := by with_unfolding_all decide
  rw [this, add_zero]

/-- When every item of the bucket has integral calories, the dashboard's
rounded live total equals the trigger's exact bucket total. -/
theorem dashboardTotal_eq_bucketCalories (meals : List MealRow)
    (items : List MealItemRow) (uid d : Nat)
    (hnd : (meals.map (fun m => m.id)).Nodup)
    (hint : ∀ it ∈ items, itemInBucket meals it uid d = true →
      ∃ k : Int, it.calories = (k : Rat)) :
    ((dashboardTotal meals items uid d : Int) : Rat) =
      bucketCalories meals items uid d := by
  rw [dashboardTotal_eq_itemSum meals items uid d hnd, bucketCalories_eq_itemSum]
  induction items with
  | nil => simp
  | cons it t ih =>
    have hit := fun h => hint it (List.mem_cons_self it t) h
    have iht := ih (fun x hx h => hint x (List.mem_cons_of_mem it hx) h)
    rw [List.map_cons, List.sum_cons, List.map_cons, List.sum_cons, Int.cast_add, iht]
    congr 1
    by_cases hb : itemInBucket meals it uid d = true
    · rw [if_pos hb, if_pos hb]
      obtain ⟨k, hk⟩ := hit hb
      rw [hk, jsRound_intCast]
    · rw [if_neg hb, if_neg hb]
      exact Int.cast_zero

/-- A raw `meal_items` write changes only the `meal_items` table. -/
theorem rawItemChange_preserves (db : DB) (op : ItemOp) (db1 : DB) (rid : Nat)
    (h : rawItemChange db op = some (db1, rid)) :
    db1.users = db.users ∧ db1.meals = db.meals ∧ db1.daily_stats = db.daily_stats := by
  cases op with
  | ins it =>
    simp only [rawItemChange, Option.some.injEq, Prod.mk.injEq] at h
    rw [← h.1]
    exact ⟨rfl, rfl, rfl⟩
  | upd item_id c =>
    simp only [rawItemChange] at h
    cases hf : db.meal_items.find? (fun x => x.id == item_id) with
    | none => rw [hf] at h; simp at h
    | some old =>
      rw [hf] at h
      simp only [Option.map_some', Option.some.injEq, Prod.mk.injEq] at h
      rw [← h.1]
      exact ⟨rfl, rfl, rfl⟩
  | del item_id =>
    simp only [rawItemChange] at h
    cases hf : db.meal_items.find? (fun x => x.id == item_id) with
    | none => rw [hf] at h; simp at h
    | some old =>
      rw [hf] at h
      simp only [Option.map_some', Option.some.injEq, Prod.mk.injEq] at h
      rw [← h.1]
      exact ⟨rfl, rfl, rfl⟩

/-- The state after a `meal_items` write whose trigger resolved both parent
rows: the bucket of the owning meal holds exactly the recomputed row. -/
theorem applyItemOp_statsFor (db : DB) (op : ItemOp) (db1 : DB) (rid : Nat)
    (m : MealRow) (u : UserRow)
    (h : rawItemChange db op = some (db1, rid))
    (hm : lookupMeal db1.meals rid = some m)
    (hu : lookupUser db1.users m.user_id = some u)
    (hun : statsKeyUnique db.daily_stats) :
    statsFor (applyItemOp db op).daily_stats m.user_id m.meal_date =
      [recomputedRow (applyItemOp db op).meals (applyItemOp db op).meal_items m u] := by
  unfold applyItemOp
  rw [h]
  have hun1 : statsKeyUnique db1.daily_stats := by
    rw [(rawItemChange_preserves db op db1 rid h).2.2]
    exact hun
  rw [trigger_meals, trigger_meal_items]
  exact trigger_statsFor db1 rid m u hm hu hun1

/-! ## Concrete states

The running example of spec §8 property 6: one user with goal 2000, Meal A
(breakfast) with items 300 and 105, Meal B (lunch) with items 248 and 112,
all on one date (encoded 0). -/

def exUser : UserRow := { id := 1, daily_calorie_goal := 2000 }

def exMealA : MealRow :=
  { id := 10, user_id := 1, meal_name := "Meal A", meal_type := "breakfast", meal_date := 0 }

def exMealB : MealRow :=
  { id := 20, user_id := 1, meal_name := "Meal B", meal_type := "lunch", meal_date := 0 }

/-- A meal on another date (encoded 5) that never receives any item. -/
def exMealC : MealRow :=
  { id := 30, user_id := 1, meal_name := "Empty dinner", meal_type := "dinner", meal_date := 5 }

def exDB0 : DB :=
  { users := [exUser], meals := [exMealA, exMealB], meal_items := [], daily_stats := [] }

/-- The spec §8 scenario state: all four items logged through the write path. -/
def exScenario : DB :=
  insertMealItem (insertMealItem (insertMealItem (insertMealItem exDB0
    { id := 101, meal_id := 10, calories := 300 })
    { id := 102, meal_id := 10, calories := 105 })
    { id := 103, meal_id := 20, calories := 248 })
    { id := 104, meal_id := 20, calories := 112 }

/-- Meal B's items deleted one at a time (direct item deletes). -/
def exScenarioDel1 : DB := deleteMealItem exScenario 103

def exScenarioDel2 : DB := deleteMealItem exScenarioDel1 104

/-- Meal B deleted as a row (cascade-deleting its two items). -/
def exAfterMealDelete : DB := deleteMeal exScenario 20

/-- An item insert performed on the stale state left by the meal delete. -/
def exC6 : DB := insertMealItem exAfterMealDelete { id := 105, meal_id := 10, calories := 50 }

/-- A state whose second meal (on date 5) exists but has no items, after a
meal_items insert into the date-0 bucket has committed. -/
def exC1db : DB :=
  { users := [exUser], meals := [exMealA, exMealC], meal_items := [], daily_stats := [] }

def exC1 : DB := insertMealItem exC1db { id := 101, meal_id := 10, calories := 300 }

/-- A fractional-calorie item (DECIMAL(8,2) value 0.40). -/
def exFrac : DB := insertMealItem exDB0 { id := 301, meal_id := 10, calories := 2/5 }

/-- The raw state of inserting item 101 into `exDB0`, used to instantiate
hypotheses at a concrete input. -/
def exIns1 : DB :=
  { users := [exUser], meals := [exMealA, exMealB],
    meal_items := [{ id := 101, meal_id := 10, calories := 300 }], daily_stats := [] }

/-! ## Claims -/

/-- C1, counterexample to the claim as stated: after a committed meal_items
insert, the bucket (user 1, date 5) holds one Meal (Meal C, which has no
items) yet no daily_stats row exists for it — daily_stats rows are created
lazily, only by meal_items writes in the same bucket.  So it is not the case
that every (User, date) pair with at least one Meal has a daily_stats row. -/
theorem C1_counterexample :
    (exC1.meals.filter (fun m => m.user_id == 1 && m.meal_date == 5)).length = 1 ∧
    statsFor exC1.daily_stats 1 5 = [] ∧
    statsFor exC1.daily_stats 1 0 ≠ [] := by
  refine ⟨by with_unfolding_all decide, by with_unfolding_all decide, by with_unfolding_all decide⟩

/-- C1 (amended): whenever a meal_items insert, update or delete commits and
the trigger resolves the owning meal and its user, exactly one daily_stats
row exists for the affected (user_id, meal_date) bucket, and its
total_calories is the sum of calories over all meal_items joined to meals
with that user_id and meal_date, its meals_logged is the count of distinct
meals rows for that user_id and meal_date, and its goal_achieved equals
(total_calories <= that user's daily_calorie_goal) — all recomputed over the
then-current tables.  (Buckets not touched by a meal_items write may lack a
row entirely, as the counterexample shows.) -/
theorem C1_daily_aggregate_consistency (db : DB) (op : ItemOp) (db1 : DB) (rid : Nat)
    (m : MealRow) (u : UserRow)
    (h : rawItemChange db op = some (db1, rid))
    (hm : lookupMeal db1.meals rid = some m)
    (hu : lookupUser db1.users m.user_id = some u)
    (hun : statsKeyUnique db.daily_stats) :
    statsFor (applyItemOp db op).daily_stats m.user_id m.meal_date =
      [recomputedRow (applyItemOp db op).meals (applyItemOp db op).meal_items m u] :=
  applyItemOp_statsFor db op db1 rid m u h hm hu hun

/-- C1, witness: the hypotheses hold at the concrete insert of item 101 into
`exDB0`, and the conclusion evaluates there. -/
theorem C1_witness :
    statsKeyUnique exDB0.daily_stats ∧
    statsFor (applyItemOp exDB0 (.ins { id := 101, meal_id := 10, calories := 300 })).daily_stats 1 0 =
      [recomputedRow (applyItemOp exDB0 (.ins { id := 101, meal_id := 10, calories := 300 })).meals
        (applyItemOp exDB0 (.ins { id := 101, meal_id := 10, calories := 300 })).meal_items
        exMealA exUser] :=
  ⟨by with_unfolding_all decide,
   C1_daily_aggregate_consistency exDB0 (.ins { id := 101, meal_id := 10, calories := 300 })
     exIns1 10 exMealA exUser
     (by with_unfolding_all decide) (by with_unfolding_all decide)
     (by with_unfolding_all decide) (by with_unfolding_all decide)⟩

def exItem101 : MealItemRow := { id := 101, meal_id := 10, calories := 300 }

/-- One user, one meal, one logged item: the minimal bucket. -/
def exSingle : DB :=
  insertMealItem { users := [exUser], meals := [exMealA], meal_items := [], daily_stats := [] }
    exItem101

/-- C2, counterexample to the claim as stated: deleting Meal B (whose two
items total 360) from the §8 scenario leaves the bucket's total_calories at
765, not at 765 - 360: the per-item cascade triggers find the parent meal
already deleted and skip, so nothing is subtracted. -/
theorem C2_counterexample :
    statsFor exAfterMealDelete.daily_stats 1 0 =
      [{ user_id := 1, stats_date := 0, total_calories := 765, meals_logged := 2,
         goal_achieved := true }] ∧
    ((765 : Rat) ≠ 765 - 360) := by
  refine ⟨by with_unfolding_all decide, by with_unfolding_all decide⟩

/-- C2 (amended): deleting a Meal (which cascade-deletes its meal_items)
leaves the bucket's daily_stats entirely unchanged — the total is not
reduced by the meal's items, because each cascaded item-delete trigger runs
after the parent meal row is gone and skips.  Deleting the last remaining
Meal Item of a bucket directly does not delete the daily_stats row: it
updates it in place to total_calories = 0. -/
theorem C2_cascade_and_last_item :
    (∀ (db : DB) (mid : Nat), (deleteMeal db mid).daily_stats = db.daily_stats) ∧
    (∀ (db : DB) (it : MealItemRow) (m : MealRow) (u : UserRow),
      db.meal_items.find? (fun x => x.id == it.id) = some it →
      lookupMeal db.meals it.meal_id = some m →
      lookupUser db.users m.user_id = some u →
      statsKeyUnique db.daily_stats →
      db.meal_items.filter (fun x => itemInBucket db.meals x m.user_id m.meal_date) = [it] →
      statsFor (deleteMealItem db it.id).daily_stats m.user_id m.meal_date =
        [{ user_id := m.user_id, stats_date := m.meal_date, total_calories := 0,
           meals_logged := mealsLogged db.meals m.user_id m.meal_date,
           goal_achieved := decide ((0 : Rat) ≤ (u.daily_calorie_goal : Rat)) }]) := by
  constructor
  · intro db mid
    rw [deleteMeal_eq]
  · intro db it m u hfind hm hu hun honly
    have hraw : rawItemChange db (.del it.id) =
        some ({ db with meal_items := db.meal_items.filter (fun x => !(x.id == it.id)) },
              it.meal_id) := by
      simp only [rawItemChange, hfind, Option.map_some']
    have h1 : (applyItemOp db (.del it.id)).meals = db.meals := by
      unfold applyItemOp
      rw [hraw]
      exact trigger_meals _ _
    have h2 : (applyItemOp db (.del it.id)).meal_items =
        db.meal_items.filter (fun x => !(x.id == it.id)) := by
      unfold applyItemOp
      rw [hraw]
      exact trigger_meal_items _ _
    have happ := applyItemOp_statsFor db (.del it.id) _ it.meal_id m u hraw hm hu hun
    have hbc : bucketCalories (applyItemOp db (.del it.id)).meals
        (applyItemOp db (.del it.id)).meal_items m.user_id m.meal_date = 0 := by
      rw [h1, h2]
      unfold bucketCalories
      rw [bucket_after_delete db.meals db.meal_items m.user_id m.meal_date it honly]
      rfl
    rw [show deleteMealItem db it.id = applyItemOp db (.del it.id) from rfl, happ]
    unfold recomputedRow
    rw [hbc, h1]

/-- C2, witness: deleting the only item of the minimal bucket keeps the
daily_stats row and zeroes its total. -/
theorem C2_witness :
    exSingle.meal_items.find? (fun x => x.id == exItem101.id) = some exItem101 ∧
    statsKeyUnique exSingle.daily_stats ∧
    exSingle.meal_items.filter
      (fun x => itemInBucket exSingle.meals x exMealA.user_id exMealA.meal_date) = [exItem101] ∧
    statsFor (deleteMealItem exSingle exItem101.id).daily_stats
        exMealA.user_id exMealA.meal_date =
      [{ user_id := exMealA.user_id, stats_date := exMealA.meal_date, total_calories := 0,
         meals_logged := mealsLogged exSingle.meals exMealA.user_id exMealA.meal_date,
         goal_achieved := decide ((0 : Rat) ≤ (exUser.daily_calorie_goal : Rat)) }] :=
  ⟨by with_unfolding_all decide, by with_unfolding_all decide, by with_unfolding_all decide,
   C2_cascade_and_last_item.2 exSingle exItem101 exMealA exUser
     (by with_unfolding_all decide) (by with_unfolding_all decide)
     (by with_unfolding_all decide) (by with_unfolding_all decide)
     (by with_unfolding_all decide)⟩

/-- C3, counterexample to the claim as stated: in the cascade delete of Meal
B, the trigger does not recompute the aggregate from the pre-delete row
image — daily_stats is left untouched (still 765) while a live
recomputation of the bucket yields 405.  The aggregate is NOT "still
recomputed when the parent Meal has already been removed by cascade". -/
theorem C3_counterexample :
    exAfterMealDelete.daily_stats = exScenario.daily_stats ∧
    statsFor exAfterMealDelete.daily_stats 1 0 =
      [{ user_id := 1, stats_date := 0, total_calories := 765, meals_logged := 2,
         goal_achieved := true }] ∧
    bucketCalories exAfterMealDelete.meals exAfterMealDelete.meal_items 1 0 = 405 ∧
    ((765 : Rat) ≠ 405) := by
  refine ⟨by with_unfolding_all decide, by with_unfolding_all decide,
    by with_unfolding_all decide, by with_unfolding_all decide⟩

/-- C3 (amended): when the recomputation step handles a Meal Item delete it
takes only `OLD.meal_id` from the pre-delete row image and resolves
meal_date and user_id by a fresh lookup of the parent Meal.  If the parent
Meal still exists the bucket is recomputed and upserted; if the parent has
already been removed (cascade), the lookup fails and the step skips,
leaving the state unchanged — it cannot recompute from the row image alone. -/
theorem C3_delete_resolution :
    (∀ (db : DB) (rid : Nat), lookupMeal db.meals rid = none →
      update_daily_stats_for_meal db rid = db) ∧
    (∀ (db : DB) (rid : Nat) (m : MealRow) (u : UserRow),
      lookupMeal db.meals rid = some m →
      lookupUser db.users m.user_id = some u →
      statsKeyUnique db.daily_stats →
      statsFor (update_daily_stats_for_meal db rid).daily_stats m.user_id m.meal_date =
        [recomputedRow db.meals db.meal_items m u]) :=
  ⟨trigger_skip_of_no_meal,
   fun db rid m u hm hu hun => trigger_statsFor db rid m u hm hu hun⟩

/-- C3, witness: on the post-cascade state of the Meal B delete the lookup
of meal 20 fails and the trigger is a no-op; on the intact state the lookup
of meal 10 succeeds and the bucket is recomputed. -/
theorem C3_witness :
    lookupMeal exAfterMealDelete.meals 20 = none ∧
    update_daily_stats_for_meal exAfterMealDelete 20 = exAfterMealDelete ∧
    lookupMeal exSingle.meals 10 = some exMealA ∧
    statsFor (update_daily_stats_for_meal exSingle 10).daily_stats 1 0 =
      [recomputedRow exSingle.meals exSingle.meal_items exMealA exUser] :=
  ⟨by with_unfolding_all decide,
   C3_delete_resolution.1 exAfterMealDelete 20 (by with_unfolding_all decide),
   by with_unfolding_all decide,
   C3_delete_resolution.2 exSingle 10 exMealA exUser
     (by with_unfolding_all decide) (by with_unfolding_all decide)
     (by with_unfolding_all decide)⟩

def exItem102 : MealItemRow := { id := 102, meal_id := 10, calories := 105 }

/-- `exSingle` with item 102 appended but the trigger not yet run: the raw
table change of that insert. -/
def exIns2 : DB :=
  { users := [exUser], meals := [exMealA], meal_items := [exItem101, exItem102],
    daily_stats := [{ user_id := 1, stats_date := 0, total_calories := 300,
                      meals_logged := 1, goal_achieved := true }] }

/-- C4: after any successful recomputation, meals_logged is the count of all
meals rows of the bucket — including meals that currently have zero items.
In the §8 scenario, deleting Meal B's two items one at a time converges the
total to 405 while meals_logged stays 2: Meal B's row still exists, empty. -/
theorem C4_meals_logged :
    (∀ (db : DB) (op : ItemOp) (db1 : DB) (rid : Nat) (m : MealRow) (u : UserRow),
      rawItemChange db op = some (db1, rid) →
      lookupMeal db1.meals rid = some m →
      lookupUser db1.users m.user_id = some u →
      statsKeyUnique db.daily_stats →
      (statsFor (applyItemOp db op).daily_stats m.user_id m.meal_date).map
        (fun r => r.meals_logged) =
        [mealsLogged (applyItemOp db op).meals m.user_id m.meal_date]) ∧
    statsFor exScenarioDel1.daily_stats 1 0 =
      [{ user_id := 1, stats_date := 0, total_calories := 517, meals_logged := 2,
         goal_achieved := true }] ∧
    statsFor exScenarioDel2.daily_stats 1 0 =
      [{ user_id := 1, stats_date := 0, total_calories := 405, meals_logged := 2,
         goal_achieved := true }] ∧
    exMealB ∈ exScenarioDel2.meals ∧
    exScenarioDel2.meal_items.filter (fun x => x.meal_id == 20) = [] := by
  refine ⟨?_, by with_unfolding_all decide, by with_unfolding_all decide,
    by with_unfolding_all decide, by with_unfolding_all decide⟩
  intro db op db1 rid m u h hm hu hun
  rw [applyItemOp_statsFor db op db1 rid m u h hm hu hun]
  rfl

/-- C4, witness: inserting item 102 into the one-meal bucket recomputes
meals_logged as the full meal count of the bucket. -/
theorem C4_witness :
    rawItemChange exSingle (.ins exItem102) = some (exIns2, 10) ∧
    statsKeyUnique exSingle.daily_stats ∧
    (statsFor (applyItemOp exSingle (.ins exItem102)).daily_stats 1 0).map
      (fun r => r.meals_logged) =
      [mealsLogged (applyItemOp exSingle (.ins exItem102)).meals 1 0] :=
  ⟨by with_unfolding_all decide, by with_unfolding_all decide,
   C4_meals_logged.1 exSingle (.ins exItem102) exIns2 10 exMealA exUser
     (by with_unfolding_all decide) (by with_unfolding_all decide)
     (by with_unfolding_all decide) (by with_unfolding_all decide)⟩

/-- C5: goal_achieved is boundary-inclusive on both read paths.  The
trigger-maintained row has goal_achieved = true exactly when total_calories
<= daily_calorie_goal — in particular true at exact equality and false at
goal + 1 — and GET /api/dashboard computes goal_achieved the same way from
its own (rounded) total. -/
theorem C5_goal_boundary :
    (∀ (db : DB) (rid : Nat) (m : MealRow) (u : UserRow),
      lookupMeal db.meals rid = some m →
      lookupUser db.users m.user_id = some u →
      statsKeyUnique db.daily_stats →
      statsFor (update_daily_stats_for_meal db rid).daily_stats m.user_id m.meal_date =
        [recomputedRow db.meals db.meal_items m u] ∧
      ((recomputedRow db.meals db.meal_items m u).goal_achieved = true ↔
        (recomputedRow db.meals db.meal_items m u).total_calories ≤ (u.daily_calorie_goal : Rat)) ∧
      ((recomputedRow db.meals db.meal_items m u).total_calories = (u.daily_calorie_goal : Rat) →
        (recomputedRow db.meals db.meal_items m u).goal_achieved = true) ∧
      ((recomputedRow db.meals db.meal_items m u).total_calories = (u.daily_calorie_goal : Rat) + 1 →
        (recomputedRow db.meals db.meal_items m u).goal_achieved = false)) ∧
    (∀ (db : DB) (uid d : Nat) (u : UserRow) (t : Int) (b : Bool),
      lookupUser db.users uid = some u →
      dashboard db uid d = some (t, b) →
      ((b = true ↔ t ≤ u.daily_calorie_goal) ∧
       (t = u.daily_calorie_goal → b = true) ∧
       (t = u.daily_calorie_goal + 1 → b = false))) := by
  constructor
  · intro db rid m u hm hu hun
    refine ⟨trigger_statsFor db rid m u hm hu hun, ?_, ?_, ?_⟩
    · simp [recomputedRow]
    · intro heq
      simp only [recomputedRow] at heq ⊢
      rw [heq]
      simp
    · intro heq
      simp only [recomputedRow] at heq ⊢
      rw [heq, decide_eq_false_iff_not]
      intro hc
      linarith
  · intro db uid d u t b hu hdash
    simp only [dashboard, hu, Option.some.injEq, Prod.mk.injEq] at hdash
    obtain ⟨ht, hb⟩ := hdash
    subst ht
    subst hb
    refine ⟨by simp, ?_, ?_⟩
    · intro heq
      rw [heq]
      simp
    · intro heq
      rw [heq, decide_eq_false_iff_not]
      intro hc
      linarith

/-- C5, witness: both parts instantiated — the trigger run on the minimal
bucket, and the dashboard read of the §8 scenario. -/
theorem C5_witness :
    (statsKeyUnique exSingle.daily_stats ∧
      statsFor (update_daily_stats_for_meal exSingle 10).daily_stats 1 0 =
        [recomputedRow exSingle.meals exSingle.meal_items exMealA exUser] ∧
      ((recomputedRow exSingle.meals exSingle.meal_items exMealA exUser).goal_achieved = true ↔
        (recomputedRow exSingle.meals exSingle.meal_items exMealA exUser).total_calories ≤
          (exUser.daily_calorie_goal : Rat)) ∧
      ((recomputedRow exSingle.meals exSingle.meal_items exMealA exUser).total_calories =
          (exUser.daily_calorie_goal : Rat) →
        (recomputedRow exSingle.meals exSingle.meal_items exMealA exUser).goal_achieved = true) ∧
      ((recomputedRow exSingle.meals exSingle.meal_items exMealA exUser).total_calories =
          (exUser.daily_calorie_goal : Rat) + 1 →
        (recomputedRow exSingle.meals exSingle.meal_items exMealA exUser).goal_achieved = false)) ∧
    (dashboard exScenario 1 0 = some (765, true) ∧
      ((true = true) ↔ (765 : Int) ≤ exUser.daily_calorie_goal) ∧
      ((765 : Int) = exUser.daily_calorie_goal → true = true) ∧
      ((765 : Int) = exUser.daily_calorie_goal + 1 → true = false)) :=
  ⟨⟨by with_unfolding_all decide,
    C5_goal_boundary.1 exSingle 10 exMealA exUser
      (by with_unfolding_all decide) (by with_unfolding_all decide)
      (by with_unfolding_all decide)⟩,
   ⟨by with_unfolding_all decide,
    C5_goal_boundary.2 exScenario 1 0 exUser 765 true
      (by with_unfolding_all decide) (by with_unfolding_all decide)⟩⟩

/-- C6, counterexample to the claim as stated: after deleting Meal B the
bucket's daily_stats.total_calories is T = 765 (stale — the cascade skipped
recomputation), and inserting an item with calories 50 under Meal A then
yields total_calories 455 (the live recomputation 405 + 50), not
T + c = 815. -/
theorem C6_counterexample :
    statsFor exAfterMealDelete.daily_stats 1 0 =
      [{ user_id := 1, stats_date := 0, total_calories := 765, meals_logged := 2,
         goal_achieved := true }] ∧
    statsFor exC6.daily_stats 1 0 =
      [{ user_id := 1, stats_date := 0, total_calories := 455, meals_logged := 1,
         goal_achieved := true }] ∧
    ((455 : Rat) ≠ 765 + 50) := by
  refine ⟨by with_unfolding_all decide, by with_unfolding_all decide,
    by with_unfolding_all decide⟩

/-- C6 (amended): additivity holds relative to the live bucket sum.  When
the bucket's daily_stats row is up to date — its total T equals the live sum
of the bucket's items — inserting one Meal Item with calories c under an
existing Meal of the bucket (no concurrent writers) yields total_calories =
T + c.  (On a stale row, e.g. after a Meal cascade delete, the result is the
live sum plus c, not T + c, as the counterexample shows.) -/
theorem C6_additivity (db : DB) (it : MealItemRow) (m : MealRow) (u : UserRow)
    (r0 : DailyStatsRow)
    (hm : lookupMeal db.meals it.meal_id = some m)
    (hu : lookupUser db.users m.user_id = some u)
    (hun : statsKeyUnique db.daily_stats)
    (h0 : statsFor db.daily_stats m.user_id m.meal_date = [r0])
    (hcons : r0.total_calories = bucketCalories db.meals db.meal_items m.user_id m.meal_date) :
    statsFor (insertMealItem db it).daily_stats m.user_id m.meal_date =
      [{ user_id := m.user_id, stats_date := m.meal_date,
         total_calories := r0.total_calories + it.calories,
         meals_logged := mealsLogged db.meals m.user_id m.meal_date,
         goal_achieved := decide (r0.total_calories + it.calories ≤
           (u.daily_calorie_goal : Rat)) }] := by
  have hraw : rawItemChange db (.ins it) =
      some ({ db with meal_items := db.meal_items ++ [it] }, it.meal_id) := rfl
  have h1 : (applyItemOp db (.ins it)).meals = db.meals := by
    unfold applyItemOp
    rw [hraw]
    exact trigger_meals _ _
  have h2 : (applyItemOp db (.ins it)).meal_items = db.meal_items ++ [it] := by
    unfold applyItemOp
    rw [hraw]
    exact trigger_meal_items _ _
  have hib : itemInBucket db.meals it m.user_id m.meal_date = true := by
    unfold itemInBucket
    rw [hm]
    simp
  have happ := applyItemOp_statsFor db (.ins it) _ it.meal_id m u hraw hm hu hun
  have hbc : bucketCalories (applyItemOp db (.ins it)).meals
      (applyItemOp db (.ins it)).meal_items m.user_id m.meal_date =
      r0.total_calories + it.calories := by
    rw [h1, h2, bucketCalories_append db.meals db.meal_items m.user_id m.meal_date it hib,
        ← hcons]
  rw [show insertMealItem db it = applyItemOp db (.ins it) from rfl, happ]
  unfold recomputedRow
  rw [hbc, h1]

def exC6r0 : DailyStatsRow :=
  { user_id := 1, stats_date := 0, total_calories := 300, meals_logged := 1,
    goal_achieved := true }

/-- C6, witness: inserting item 102 (105 kcal) into the up-to-date minimal
bucket (total 300) yields total 300 + 105. -/
theorem C6_witness :
    statsKeyUnique exSingle.daily_stats ∧
    statsFor exSingle.daily_stats 1 0 = [exC6r0] ∧
    exC6r0.total_calories = bucketCalories exSingle.meals exSingle.meal_items 1 0 ∧
    statsFor (insertMealItem exSingle exItem102).daily_stats 1 0 =
      [{ user_id := 1, stats_date := 0,
         total_calories := exC6r0.total_calories + exItem102.calories,
         meals_logged := mealsLogged exSingle.meals 1 0,
         goal_achieved := decide (exC6r0.total_calories + exItem102.calories ≤
           (exUser.daily_calorie_goal : Rat)) }] :=
  ⟨by with_unfolding_all decide, by with_unfolding_all decide, by with_unfolding_all decide,
   C6_additivity exSingle exItem102 exMealA exUser exC6r0
     (by with_unfolding_all decide) (by with_unfolding_all decide)
     (by with_unfolding_all decide) (by with_unfolding_all decide)
     (by with_unfolding_all decide)⟩

/-- C7: orphan tolerance.  The recomputation step never raises: the checked
variant (with the daily_stats→users foreign key made explicit) always
returns ok; when the parent meal or the owning user cannot be resolved it
silently skips, writing nothing.  Deleting a User raises no error from the
aggregation step and leaves no daily_stats row referencing the deleted
user. -/
theorem C7_orphan_tolerance :
    (∀ (db : DB) (rid : Nat),
      update_daily_stats_for_meal_checked db rid =
        Except.ok (update_daily_stats_for_meal db rid)) ∧
    (∀ (db : DB) (rid : Nat), lookupMeal db.meals rid = none →
      update_daily_stats_for_meal db rid = db) ∧
    (∀ (db : DB) (rid : Nat) (m : MealRow),
      lookupMeal db.meals rid = some m →
      lookupUser db.users m.user_id = none →
      update_daily_stats_for_meal db rid = db) ∧
    (∀ (db : DB) (uid : Nat), (db.meals.map (fun m => m.id)).Nodup →
      (deleteUserChecked db uid = Except.ok (deleteUser db uid) ∧
       ∀ r ∈ (deleteUser db uid).daily_stats, r.user_id ≠ uid)) := by
  refine ⟨trigger_checked_ok, trigger_skip_of_no_meal, trigger_skip_of_no_user, ?_⟩
  intro db uid hnd
  refine ⟨deleteUserChecked_eq db uid hnd, ?_⟩
  intro r hr
  rw [deleteUser_eq db uid hnd] at hr
  simp only [List.mem_filter] at hr
  simpa using hr.2

/-- C7, witness: deleting user 1 from the §8 scenario raises no error and
leaves no daily_stats row for user 1; the skip paths fire on the
post-cascade state. -/
theorem C7_witness :
    (exScenario.meals.map (fun m => m.id)).Nodup ∧
    deleteUserChecked exScenario 1 = Except.ok (deleteUser exScenario 1) ∧
    lookupMeal exAfterMealDelete.meals 20 = none ∧
    update_daily_stats_for_meal exAfterMealDelete 20 = exAfterMealDelete ∧
    (deleteUser exScenario 1).daily_stats = [] :=
  ⟨by with_unfolding_all decide,
   (C7_orphan_tolerance.2.2.2 exScenario 1 (by with_unfolding_all decide)).1,
   by with_unfolding_all decide,
   C7_orphan_tolerance.2.1 exAfterMealDelete 20 (by with_unfolding_all decide),
   by with_unfolding_all decide⟩

/-- C8: idempotent convergence.  For a fixed set of meal_items (and meals
and users), running the recomputation step any positive number of times in
succession produces exactly the state produced by running it once — in
particular the same total_calories, meals_logged and goal_achieved. -/
theorem C8_idempotent_convergence (db : DB) (rid : Nat) (n : Nat) :
    Nat.iterate (fun s => update_daily_stats_for_meal s rid) (n + 1) db =
      update_daily_stats_for_meal db rid := by
  induction n with
  | zero => rfl
  | succ k ih =>
    rw [Function.iterate_succ_apply', ih, trigger_idem]

/-- C9: GET /api/dashboard never reads daily_stats — its result is invariant
under any replacement of that table; it recomputes the day's total live by
rounding each item's calories (Math.round) and summing, and derives
goal_achieved from that rounded total.  When every bucket item's calories is
integral and the trigger-maintained row is up to date, the dashboard's total
and goal_achieved agree with the daily_stats values; with fractional
calories the two read paths can differ (0.40 kcal materializes as 2/5 in
daily_stats but rounds to 0 on the dashboard). -/
theorem C9_dashboard_vs_stats :
    (∀ (db : DB) (S : List DailyStatsRow) (uid d : Nat),
      dashboard { db with daily_stats := S } uid d = dashboard db uid d) ∧
    (∀ (db : DB) (uid d : Nat) (u : UserRow) (r : DailyStatsRow),
      lookupUser db.users uid = some u →
      (db.meals.map (fun m => m.id)).Nodup →
      (∀ it ∈ db.meal_items, itemInBucket db.meals it uid d = true →
        ∃ k : Int, it.calories = (k : Rat)) →
      statsFor db.daily_stats uid d = [r] →
      r.total_calories = bucketCalories db.meals db.meal_items uid d →
      r.goal_achieved = decide (r.total_calories ≤ (u.daily_calorie_goal : Rat)) →
      (dashboard db uid d =
        some (dashboardTotal db.meals db.meal_items uid d, r.goal_achieved) ∧
       ((dashboardTotal db.meals db.meal_items uid d : Rat) = r.total_calories))) ∧
    (statsFor exFrac.daily_stats 1 0 =
      [{ user_id := 1, stats_date := 0, total_calories := 2/5, meals_logged := 2,
         goal_achieved := true }] ∧
     dashboardTotal exFrac.meals exFrac.meal_items 1 0 = 0 ∧
     ((0 : Rat) ≠ 2/5)) := by
  refine ⟨?_, ?_, by with_unfolding_all decide, by with_unfolding_all decide,
    by with_unfolding_all decide⟩
  · intro db S uid d
    rfl
  · intro db uid d u r hu hnd hint hsf htc hga
    have hdt := dashboardTotal_eq_bucketCalories db.meals db.meal_items uid d hnd hint
    constructor
    · simp only [dashboard, hu]
      have hb : decide (dashboardTotal db.meals db.meal_items uid d ≤ u.daily_calorie_goal) =
          r.goal_achieved := by
        rw [hga, htc, ← hdt, decide_eq_decide]
        exact Int.cast_le.symm
      rw [hb]
    · rw [hdt, htc]

def exC9r : DailyStatsRow :=
  { user_id := 1, stats_date := 0, total_calories := 765, meals_logged := 2,
    goal_achieved := true }

/-- C9, witness: on the §8 scenario (all calories integral, aggregate up to
date) the dashboard read agrees with the daily_stats row. -/
theorem C9_witness :
    lookupUser exScenario.users 1 = some exUser ∧
    (exScenario.meals.map (fun m => m.id)).Nodup ∧
    statsFor exScenario.daily_stats 1 0 = [exC9r] ∧
    exC9r.total_calories = bucketCalories exScenario.meals exScenario.meal_items 1 0 ∧
    dashboard exScenario 1 0 =
      some (dashboardTotal exScenario.meals exScenario.meal_items 1 0, exC9r.goal_achieved) ∧
    ((dashboardTotal exScenario.meals exScenario.meal_items 1 0 : Rat) =
      exC9r.total_calories) := by
  have hmain := (C9_dashboard_vs_stats.2.1 exScenario 1 0 exUser exC9r
    (by with_unfolding_all decide) (by with_unfolding_all decide)
    (by
      intro it hit hb
      rw [show exScenario.meal_items =
        [{ id := 101, meal_id := 10, calories := 300 },
         { id := 102, meal_id := 10, calories := 105 },
         { id := 103, meal_id := 20, calories := 248 },
         { id := 104, meal_id := 20, calories := 112 }] from by with_unfolding_all decide] at hit
      simp only [List.mem_cons, List.not_mem_nil, or_false] at hit
      rcases hit with rfl | rfl | rfl | rfl
      · exact ⟨300, by with_unfolding_all decide⟩
      · exact ⟨105, by with_unfolding_all decide⟩
      · exact ⟨248, by with_unfolding_all decide⟩
      · exact ⟨112, by with_unfolding_all decide⟩)
    (by with_unfolding_all decide) (by with_unfolding_all decide)
    (by with_unfolding_all decide))
  exact ⟨by with_unfolding_all decide, by with_unfolding_all decide,
    by with_unfolding_all decide, by with_unfolding_all decide, hmain.1, hmain.2⟩

/-- C10: frame property of meal-row-only writes.  Inserting a meals row
(including a meal saved with zero items after failed food detection in
POST /api/meals/upload) or updating a meal's name or type leaves daily_stats
entirely unchanged: the aggregation trigger is installed only on meal_items,
so an empty meal's bucket gets no aggregate row or meals_logged update until
the next meal_items write. -/
theorem C10_meal_row_frame :
    (∀ (db : DB) (m : MealRow), (insertMeal db m).daily_stats = db.daily_stats) ∧
    (∀ (db : DB) (mid : Nat) (s : String),
      (updateMealName db mid s).daily_stats = db.daily_stats) ∧
    (∀ (db : DB) (mid : Nat) (s : String),
      (updateMealType db mid s).daily_stats = db.daily_stats) ∧
    (∀ (db : DB) (m : MealRow), uploadMeal db m [] = insertMeal db m) ∧
    (∀ (db : DB) (m : MealRow), (uploadMeal db m []).daily_stats = db.daily_stats) :=
  ⟨fun _ _ => rfl, fun _ _ _ => rfl, fun _ _ _ => rfl, fun _ _ => rfl, fun _ _ => rfl⟩
